import Mathlib

/-!
Verification of the semaphore adapter in `src/sem.c` (libpthread):
a POSIX-semaphore layer over a native counting-semaphore primitive.

The embedding is a shallow one.  The native synchronization layer
(`CreateSemaphore`, `OpenSemaphoreA`, `WaitForSingleObject`,
`ReleaseSemaphore`, `CloseHandle`) and the helpers `set_errno` /
`arch_rel_time_in_ms` are not part of the repository's sources; they
are modelled from the spec (§6: create(initial, max), open-by-name,
release(n), wait(timeout-or-infinite) → signaled / timed-out /
abnormal, close).  External nondeterminism (allocation failure, a
native open denied for a reason other than "not found", native
creation failure, an abnormal wake) is passed in as explicit boolean
oracles.  Resource effects are recorded as an event trace so that
free/close obligations on failure paths can be stated.
-/

set_option autoImplicit false

namespace LibPthreadSem

/-- errno code `EPERM` (standard value from `<errno.h>`). -/
def EPERM : Nat := 1

/-- errno code `ENOENT`. -/
def ENOENT : Nat := 2

/-- errno code `ENOMEM`. -/
def ENOMEM : Nat := 12

/-- errno code `EEXIST`. -/
def EEXIST : Nat := 17

/-- errno code `EINVAL`. -/
def EINVAL : Nat := 22

/-- errno code `ENOSPC`. -/
def ENOSPC : Nat := 28

/-- errno code `ETIMEDOUT`. -/
def ETIMEDOUT : Nat := 110

/-- Modelled from the spec: `SEM_VALUE_MAX`, "the maximum permissible
semaphore count, bounding both initial value and cumulative increments"
(the header defining it is not under `src/`); the POSIX minimum value
32767 is used as the concrete bound. -/
def SEM_VALUE_MAX : Nat := 32767

/-- Modelled from the spec: the `pshared` value meaning "private to this
process" (the header defining it is not under `src/`). -/
def PTHREAD_PROCESS_PRIVATE : Int := 0

/-- A native counting-semaphore object: current count and the maximum
count it was created with (modelled from the spec §6). -/
structure NativeSem where
  count : Nat
  maxCount : Nat
deriving DecidableEq

/-- Result of the native wait primitive (spec §6:
signaled / timed-out / abnormal); `blocked` stands for a call with an
infinite timeout on a zero count, which never returns in this
sequential model (no other thread posts). -/
inductive WaitOutcome where
  | signaled (s : NativeSem)
  | timedOut
  | abnormal
  | blocked
deriving DecidableEq

/-- Modelled from the spec: `WaitForSingleObject` on a native counting
semaphore.  `timeout = none` is INFINITE, `some ms` a bounded wait.
If the count is positive the wait is satisfied at once (atomic
decrement); on a zero count a bounded wait times out; `abn` injects an
abnormal (non-signal, non-timeout) wake. -/
def nativeWait (s : NativeSem) (timeout : Option Nat) (abn : Bool) : WaitOutcome :=
  if abn then WaitOutcome.abnormal
  else if 0 < s.count then WaitOutcome.signaled { s with count := s.count - 1 }
  else
    match timeout with
    | some _ => WaitOutcome.timedOut
    | none => WaitOutcome.blocked

/-- Modelled from the spec: `ReleaseSemaphore(handle, n)` — atomic
increment by `n`, failing (`none`) if the increment would exceed the
object's configured maximum count. -/
def nativeRelease (s : NativeSem) (n : Nat) : Option NativeSem :=
  if s.count + n ≤ s.maxCount then some { s with count := s.count + n } else none

/-- Return status of a status-returning adapter call: `ok` models
`return 0`, `fail e` models `return set_errno(e)` (the `-1` sentinel
with thread-local errno `e`). -/
inductive Ret where
  | ok
  | fail (errno : Nat)
deriving DecidableEq

/-- The caller-visible handle slot / handle value: `none` models a NULL
`sem_t`, `some s` a handle owning a reference to native object `s`. -/
abbrev Slot := Option NativeSem

/-- Resource events recorded by an adapter call: a successful `calloc`,
a `free`, a successful `OpenSemaphoreA` (acquiring a native reference),
a successful `CreateSemaphore`, and a `CloseHandle`. -/
inductive Event where
  | allocEv
  | freeEv
  | openEv
  | createEv
  | closeEv
deriving DecidableEq

/-- Number of occurrences of event `e` in trace `l`. -/
def nEv (l : List Event) (e : Event) : Nat :=
  (l.filter fun x => decide (x = e)).length

/-- Outcome of `sem_init`: the return status, the caller's `*sem` slot
after the call (`slot0` is its value before), and the event trace. -/
structure InitResult where
  ret : Ret
  slot : Slot
  events : List Event
deriving DecidableEq

/-- `sem_init` (sem.c lines 30–50).  `slot0` is the prior content of the
caller's `*sem`; `semNull` models `sem == NULL`; `allocOk` and
`createOk` are the oracles for `calloc` and `CreateSemaphore`.
On success the handle wraps a fresh native object with count `value`
and maximum `SEM_VALUE_MAX`. -/
def sem_init (slot0 : Slot) (semNull : Bool) (pshared : Int) (value : Nat)
    (allocOk createOk : Bool) : InitResult :=
  if semNull = true ∨ SEM_VALUE_MAX < value then
    ⟨Ret.fail EINVAL, slot0, []⟩
  else if pshared ≠ PTHREAD_PROCESS_PRIVATE then
    ⟨Ret.fail EPERM, slot0, []⟩
  else if allocOk = false then
    ⟨Ret.fail ENOMEM, slot0, []⟩
  else if createOk = false then
    ⟨Ret.fail ENOSPC, slot0, [Event.allocEv, Event.freeEv]⟩
  else
    ⟨Ret.ok, some ⟨value, SEM_VALUE_MAX⟩, [Event.allocEv, Event.createEv]⟩

/-- Outcome of a wait/post call on a handle: return status and the
handle's native object afterwards. -/
structure OpResult where
  ret : Ret
  sem : Slot
deriving DecidableEq

/-- `sem_post` (sem.c lines 68–79): `ReleaseSemaphore(pv->handle, 1)`;
a failed release (overflow past the configured maximum) is `EINVAL`. -/
def sem_post (h : Slot) : OpResult :=
  match h with
  | none => ⟨Ret.fail EINVAL, none⟩
  | some pv =>
    match nativeRelease pv 1 with
    | some s => ⟨Ret.ok, some s⟩
    | none => ⟨Ret.fail EINVAL, some pv⟩

/-- `sem_wait` (sem.c lines 81–92): an INFINITE native wait; any result
other than `WAIT_OBJECT_0` is `EPERM`.  The outer `none` models the
call never returning (blocked forever on a zero count, since no other
thread posts in this sequential model). -/
def sem_wait (h : Slot) (abn : Bool) : Option OpResult :=
  match h with
  | none => some ⟨Ret.fail EINVAL, none⟩
  | some pv =>
    match nativeWait pv none abn with
    | WaitOutcome.signaled s => some ⟨Ret.ok, some s⟩
    | WaitOutcome.blocked => none
    | _ => some ⟨Ret.fail EPERM, some pv⟩

/-- `sem_trywait` (sem.c lines 94–109): a zero-timeout native wait;
`WAIT_OBJECT_0` is success, `WAIT_TIMEOUT` is `ETIMEDOUT`, anything
else is `EPERM`. -/
def sem_trywait (h : Slot) (abn : Bool) : OpResult :=
  match h with
  | none => ⟨Ret.fail EINVAL, none⟩
  | some pv =>
    match nativeWait pv (some 0) abn with
    | WaitOutcome.signaled s => ⟨Ret.ok, some s⟩
    | WaitOutcome.timedOut => ⟨Ret.fail ETIMEDOUT, some pv⟩
    | _ => ⟨Ret.fail EPERM, some pv⟩

/-- Modelled from the spec: `arch_rel_time_in_ms` converts an absolute
deadline to a relative millisecond duration anchored at "now",
clamping negative results to zero (spec §6, deadline-conversion
collaborator).  Both times are in milliseconds since the epoch. -/
def arch_rel_time_in_ms (deadlineMs nowMs : Int) : Nat :=
  (max 0 (deadlineMs - nowMs)).toNat

/-- `sem_timedwait` (sem.c lines 111–126): a native wait bounded by the
converted relative duration; `WAIT_OBJECT_0` is success, `WAIT_TIMEOUT`
is `ETIMEDOUT`, anything else is `EPERM`. -/
def sem_timedwait (h : Slot) (deadlineMs nowMs : Int) (abn : Bool) : OpResult :=
  match h with
  | none => ⟨Ret.fail EINVAL, none⟩
  | some pv =>
    match nativeWait pv (some (arch_rel_time_in_ms deadlineMs nowMs)) abn with
    | WaitOutcome.signaled s => ⟨Ret.ok, some s⟩
    | WaitOutcome.timedOut => ⟨Ret.fail ETIMEDOUT, some pv⟩
    | _ => ⟨Ret.fail EPERM, some pv⟩

/-- The process-wide native namespace: fully-qualified names mapped to
their native semaphore objects (modelled from the spec §6, the
"native object registered under a namespaced name"). -/
abbrev SemTable := List (String × NativeSem)

/-- Look a fully-qualified name up in the namespace. -/
def lookupSem : SemTable → String → Option NativeSem
  | [], _ => none
  | (k, s) :: rest, key => if k = key then some s else lookupSem rest key

/-- Number of buffer bytes `sem_open` writes for an accepted `name`:
the 7-byte `Global\` namespace marker at offsets 0–6, the `len` name
bytes at offsets 7 … 7+len−1, and the terminating NUL at offset
7+len (sem.c lines 145–147; the buffer holds 512 bytes). -/
def bytesUsed (name : String) : Nat := 7 + name.length + 1

/-- Outcome of `sem_open`: the returned handle (`none` models a NULL
return), the errno set during the call (if any), the namespace after
the call, and the event trace. -/
structure OpenOut where
  ret : Option NativeSem
  errno : Option Nat
  table : SemTable
  events : List Event
deriving DecidableEq

/-- `sem_open` (sem.c lines 128–181).  `oCreat`/`oExcl` are the
`O_CREAT`/`O_EXCL` bits of `oflag` (`mode` is unused by the code);
`allocOk` is the `calloc` oracle, `denied` makes `OpenSemaphoreA` fail
with a last-error other than the two not-found codes, and `createOk`
is the `CreateSemaphore` oracle.  The argument guard (line 135)
rejects `value > SEM_VALUE_MAX`, `strlen(name) > sizeof(buffer) - 8`
and `strlen(name) < 1`; the qualified name is `"Global\" ++ name`. -/
def sem_open (t : SemTable) (name : String) (oCreat oExcl : Bool) (value : Nat)
    (allocOk denied createOk : Bool) : OpenOut :=
  if SEM_VALUE_MAX < value ∨ 512 - 8 < name.length ∨ name.length < 1 then
    ⟨none, some EINVAL, t, []⟩
  else if allocOk = false then
    ⟨none, some ENOMEM, t, []⟩
  else if denied = true then
    ⟨none, some EPERM, t, [Event.allocEv, Event.freeEv]⟩
  else
    match lookupSem t ("Global\\" ++ name) with
    | some s =>
      if oCreat = true ∧ oExcl = true then
        ⟨none, some EEXIST, t, [Event.allocEv, Event.openEv, Event.closeEv, Event.freeEv]⟩
      else
        ⟨some s, none, t, [Event.allocEv, Event.openEv]⟩
    | none =>
      if oCreat = false then
        ⟨none, some ENOENT, t, [Event.allocEv, Event.freeEv]⟩
      else if createOk = false then
        ⟨none, some ENOSPC, t, [Event.allocEv, Event.freeEv]⟩
      else
        ⟨some ⟨value, SEM_VALUE_MAX⟩, none,
          ("Global\\" ++ name, (⟨value, SEM_VALUE_MAX⟩ : NativeSem)) :: t,
          [Event.allocEv, Event.createEv]⟩

/-- `sem_unlink` (sem.c lines 191–194): `return 0;` — it takes only the
name and touches nothing, so in the state-passing embedding it returns
success and the namespace unchanged. -/
def sem_unlink (t : SemTable) (name : String) : Ret × SemTable :=
  (Ret.ok, t)

/-- The handle produced by `sem_init(&s, PTHREAD_PROCESS_PRIVATE, 0)`
in a normal environment: a fresh semaphore with count 0. -/
def freshZero : Slot :=
  (sem_init none false PTHREAD_PROCESS_PRIVATE 0 true true).slot

/-- C7: for every shared flag (and any prior slot content, null check
outcome and allocation/creation oracles), `sem_init` with an initial
value strictly greater than `SEM_VALUE_MAX` returns the `-1` sentinel
with errno `EINVAL`, leaves the caller's `*sem` slot unwritten, and
performs no allocation and no native-object creation (empty trace). -/
theorem sem_init_over_max_einval (slot0 : Slot) (semNull : Bool) (pshared : Int)
    (value : Nat) (allocOk createOk : Bool) (hv : SEM_VALUE_MAX < value) :
    sem_init slot0 semNull pshared value allocOk createOk
      = ⟨Ret.fail EINVAL, slot0, []⟩ := by
  unfold sem_init
  rw [if_pos (Or.inr hv)]

/-- Witness for C7 at `value = SEM_VALUE_MAX + 1`. -/
theorem sem_init_over_max_einval_witness :
    sem_init none false 0 (SEM_VALUE_MAX + 1) true true
      = ⟨Ret.fail EINVAL, none, []⟩ :=
  sem_init_over_max_einval none false 0 (SEM_VALUE_MAX + 1) true true (by decide)

/-- C3: in a normal environment, `sem_init` with an in-range initial
value succeeds, and an immediate `sem_trywait` on the resulting handle
succeeds (decrementing the count) iff the initial value is positive;
with initial value 0 it fails with `ETIMEDOUT`. -/
theorem sem_init_then_trywait (value : Nat) (hv : value ≤ SEM_VALUE_MAX) :
    (sem_init none false PTHREAD_PROCESS_PRIVATE value true true).ret = Ret.ok ∧
    ((sem_trywait (sem_init none false PTHREAD_PROCESS_PRIVATE value true true).slot
        false).ret = Ret.ok ↔ 0 < value) ∧
    (0 < value →
      sem_trywait (sem_init none false PTHREAD_PROCESS_PRIVATE value true true).slot false
        = ⟨Ret.ok, some ⟨value - 1, SEM_VALUE_MAX⟩⟩) ∧
    (value = 0 →
      (sem_trywait (sem_init none false PTHREAD_PROCESS_PRIVATE value true true).slot
        false).ret = Ret.fail ETIMEDOUT) := by
  have h1 : ¬ SEM_VALUE_MAX < value := Nat.not_lt.mpr hv
  have hinit : sem_init none false PTHREAD_PROCESS_PRIVATE value true true
      = ⟨Ret.ok, some ⟨value, SEM_VALUE_MAX⟩, [Event.allocEv, Event.createEv]⟩ := by
    simp [sem_init, h1]
  rw [hinit]
  rcases Nat.eq_zero_or_pos value with h0 | h0
  · subst h0
    refine ⟨rfl, ?_, ?_, ?_⟩ <;> simp [sem_trywait, nativeWait, ETIMEDOUT, Ret.fail]
  · refine ⟨rfl, ?_, ?_, ?_⟩
    · simp [sem_trywait, nativeWait, h0]
    · intro _
      simp [sem_trywait, nativeWait, h0]
    · omega

/-- Witness for C3 at `value = 1`. -/
theorem sem_init_then_trywait_witness :
    (sem_init none false PTHREAD_PROCESS_PRIVATE 1 true true).ret = Ret.ok ∧
    ((sem_trywait (sem_init none false PTHREAD_PROCESS_PRIVATE 1 true true).slot
        false).ret = Ret.ok ↔ 0 < 1) ∧
    (0 < 1 →
      sem_trywait (sem_init none false PTHREAD_PROCESS_PRIVATE 1 true true).slot false
        = ⟨Ret.ok, some ⟨1 - 1, SEM_VALUE_MAX⟩⟩) ∧
    (1 = 0 →
      (sem_trywait (sem_init none false PTHREAD_PROCESS_PRIVATE 1 true true).slot
        false).ret = Ret.fail ETIMEDOUT) :=
  sem_init_then_trywait 1 (by decide)

/-- C4: on the fresh count-0 handle, `sem_post` succeeds leaving count
1, `sem_wait` then returns (no blocking) with success restoring count
0 — the net effect is zero — and a subsequent `sem_trywait` fails with
`ETIMEDOUT`. -/
theorem post_then_wait_roundtrip :
    (sem_init none false PTHREAD_PROCESS_PRIVATE 0 true true).ret = Ret.ok ∧
    freshZero = some ⟨0, SEM_VALUE_MAX⟩ ∧
    sem_post freshZero = ⟨Ret.ok, some ⟨1, SEM_VALUE_MAX⟩⟩ ∧
    sem_wait (sem_post freshZero).sem false = some ⟨Ret.ok, some ⟨0, SEM_VALUE_MAX⟩⟩ ∧
    (sem_trywait (some ⟨0, SEM_VALUE_MAX⟩) false).ret = Ret.fail ETIMEDOUT := by
  decide

/-- C2: for every valid (non-null) handle, an absolute deadline at or
before "now" converts to a relative duration of 0 milliseconds, and
`sem_timedwait` then returns exactly the result of `sem_trywait`:
success (decrementing) when the count is positive, `ETIMEDOUT` when it
is zero, and `EPERM` on an abnormal wake. -/
theorem sem_timedwait_past_deadline (pv : NativeSem) (deadlineMs nowMs : Int)
    (abn : Bool) (hd : deadlineMs ≤ nowMs) :
    arch_rel_time_in_ms deadlineMs nowMs = 0 ∧
    sem_timedwait (some pv) deadlineMs nowMs abn = sem_trywait (some pv) abn ∧
    (abn = false → 0 < pv.count →
      sem_timedwait (some pv) deadlineMs nowMs abn
        = ⟨Ret.ok, some ⟨pv.count - 1, pv.maxCount⟩⟩) ∧
    (abn = false → pv.count = 0 →
      (sem_timedwait (some pv) deadlineMs nowMs abn).ret = Ret.fail ETIMEDOUT) ∧
    (abn = true →
      (sem_timedwait (some pv) deadlineMs nowMs abn).ret = Ret.fail EPERM) := by
  have h0 : arch_rel_time_in_ms deadlineMs nowMs = 0 := by
    unfold arch_rel_time_in_ms; omega
  refine ⟨h0, ?_, ?_, ?_, ?_⟩
  · simp [sem_timedwait, sem_trywait, h0]
  · intro ha hc
    simp [sem_timedwait, nativeWait, ha, hc]
  · intro ha hc
    simp [sem_timedwait, nativeWait, ha, hc]
  · intro ha
    simp [sem_timedwait, nativeWait, ha]

/-- Witness for C2 at a zero-count semaphore and `deadline = now`. -/
theorem sem_timedwait_past_deadline_witness :
    arch_rel_time_in_ms 5 5 = 0 ∧
    sem_timedwait (some ⟨0, SEM_VALUE_MAX⟩) 5 5 false
      = sem_trywait (some ⟨0, SEM_VALUE_MAX⟩) false ∧
    (false = false → 0 < (⟨0, SEM_VALUE_MAX⟩ : NativeSem).count →
      sem_timedwait (some ⟨0, SEM_VALUE_MAX⟩) 5 5 false
        = ⟨Ret.ok, some ⟨(⟨0, SEM_VALUE_MAX⟩ : NativeSem).count - 1,
            (⟨0, SEM_VALUE_MAX⟩ : NativeSem).maxCount⟩⟩) ∧
    (false = false → (⟨0, SEM_VALUE_MAX⟩ : NativeSem).count = 0 →
      (sem_timedwait (some ⟨0, SEM_VALUE_MAX⟩) 5 5 false).ret = Ret.fail ETIMEDOUT) ∧
    (false = true →
      (sem_timedwait (some ⟨0, SEM_VALUE_MAX⟩) 5 5 false).ret = Ret.fail EPERM) :=
  sem_timedwait_past_deadline ⟨0, SEM_VALUE_MAX⟩ 5 5 false (by decide)

/-- C8: `sem_unlink` always returns success and leaves the namespace
(and hence every open handle) untouched, for every name. -/
theorem sem_unlink_always_noop (t : SemTable) (name : String) :
    sem_unlink t name = (Ret.ok, t) := rfl

/-- C1 counterexample: the name `x` exists in the namespace and the
call is made without exclusive-create, yet with
`initial_value = SEM_VALUE_MAX + 1` the open returns a NULL handle and
errno `EINVAL` instead of a handle wrapping the existing object — the
argument guard at sem.c line 135 tests the value before the name is
consulted, so `initial_value` does affect the result. -/
theorem sem_open_existing_out_of_range_value :
    (sem_open [("Global\\x", (⟨3, SEM_VALUE_MAX⟩ : NativeSem))] "x" false false
        (SEM_VALUE_MAX + 1) true false true).ret = none ∧
    (sem_open [("Global\\x", (⟨3, SEM_VALUE_MAX⟩ : NativeSem))] "x" false false
        (SEM_VALUE_MAX + 1) true false true).errno = some EINVAL := by
  decide

/-- C1 (amended): for every existing named semaphore and every
`initial_value` in `[0, SEM_VALUE_MAX]`, open without exclusive-create
(in a normal environment: allocation succeeds, the native open is not
denied) returns a handle wrapping the existing object and leaves the
namespace unchanged; within that range the result does not depend on
`initial_value` (nor on the creation oracle). -/
theorem sem_open_existing_ignores_value_in_range (t : SemTable) (name : String)
    (oCreat oExcl createOk : Bool) (value : Nat) (s : NativeSem)
    (hv : value ≤ SEM_VALUE_MAX)
    (hlen1 : 1 ≤ name.length) (hlen2 : name.length ≤ 504)
    (hfound : lookupSem t ("Global\\" ++ name) = some s)
    (hexcl : ¬(oCreat = true ∧ oExcl = true)) :
    sem_open t name oCreat oExcl value true false createOk
      = ⟨some s, none, t, [Event.allocEv, Event.openEv]⟩ := by
  have h1 : ¬(SEM_VALUE_MAX < value ∨ 512 - 8 < name.length ∨ name.length < 1) := by
    omega
  unfold sem_open
  rw [if_neg h1]
  simp [hfound, hexcl]

/-- Witness for C1's amended theorem at name `a`, count-5 object,
`initial_value = 0`, no flags. -/
theorem sem_open_existing_ignores_value_in_range_witness :
    sem_open [("Global\\a", (⟨5, SEM_VALUE_MAX⟩ : NativeSem))] "a" false false 0 true false true
      = ⟨some ⟨5, SEM_VALUE_MAX⟩, none, [("Global\\a", (⟨5, SEM_VALUE_MAX⟩ : NativeSem))],
          [Event.allocEv, Event.openEv]⟩ :=
  sem_open_existing_ignores_value_in_range
    [("Global\\a", (⟨5, SEM_VALUE_MAX⟩ : NativeSem))] "a" false false true 0
    ⟨5, SEM_VALUE_MAX⟩ (by decide) (by decide) (by decide) (by decide) (by decide)

/-- C5: in a normal environment, opening an existing name with both
`O_CREAT` and `O_EXCL` closes the just-opened native reference, frees
the handle storage and fails with `EEXIST` (NULL handle); in
particular a second exclusive-create open of the same name after a
successful first one fails this way. -/
theorem sem_open_excl_existing_eexist (t : SemTable) (name : String)
    (v v2 : Nat) (s : NativeSem)
    (hv : v ≤ SEM_VALUE_MAX) (hv2 : v2 ≤ SEM_VALUE_MAX)
    (hlen1 : 1 ≤ name.length) (hlen2 : name.length ≤ 504) :
    (lookupSem t ("Global\\" ++ name) = some s →
      sem_open t name true true v true false true
        = ⟨none, some EEXIST, t,
            [Event.allocEv, Event.openEv, Event.closeEv, Event.freeEv]⟩) ∧
    (lookupSem t ("Global\\" ++ name) = none →
      (sem_open t name true true v true false true).ret
          = some (⟨v, SEM_VALUE_MAX⟩ : NativeSem) ∧
      (sem_open (sem_open t name true true v true false true).table
          name true true v2 true false true).errno = some EEXIST) := by
  have h1 : ¬(SEM_VALUE_MAX < v ∨ 512 - 8 < name.length ∨ name.length < 1) := by
    omega
  have h2 : ¬(SEM_VALUE_MAX < v2 ∨ 512 - 8 < name.length ∨ name.length < 1) := by
    omega
  constructor
  · intro hfound
    unfold sem_open
    rw [if_neg h1]
    simp [hfound]
  · intro habsent
    have hfirst : sem_open t name true true v true false true
        = ⟨some ⟨v, SEM_VALUE_MAX⟩, none,
            ("Global\\" ++ name, (⟨v, SEM_VALUE_MAX⟩ : NativeSem)) :: t,
            [Event.allocEv, Event.createEv]⟩ := by
      unfold sem_open
      rw [if_neg h1]
      simp [habsent]
    refine ⟨by rw [hfirst], ?_⟩
    rw [hfirst]
    unfold sem_open
    rw [if_neg h2]
    simp [lookupSem]

/-- Witness for C5 at name `a` over the empty namespace: the first
exclusive-create open succeeds and the second fails with `EEXIST`. -/
theorem sem_open_excl_existing_eexist_witness :
    (lookupSem [] ("Global\\" ++ "a") = some (⟨0, SEM_VALUE_MAX⟩ : NativeSem) →
      sem_open [] "a" true true 0 true false true
        = ⟨none, some EEXIST, [],
            [Event.allocEv, Event.openEv, Event.closeEv, Event.freeEv]⟩) ∧
    (lookupSem [] ("Global\\" ++ "a") = none →
      (sem_open [] "a" true true 0 true false true).ret
          = some (⟨0, SEM_VALUE_MAX⟩ : NativeSem) ∧
      (sem_open (sem_open [] "a" true true 0 true false true).table
          "a" true true 0 true false true).errno = some EEXIST) :=
  sem_open_excl_existing_eexist [] "a" 0 0 ⟨0, SEM_VALUE_MAX⟩
    (by decide) (by decide) (by decide) (by decide)

/-- C6: in a normal environment with valid arguments, when the native
open of the name fails the failure reason is distinguished: with the
name absent and no `O_CREAT`, the open fails with `ENOENT`; with the
name absent and `O_CREAT`, a new object with the requested initial
value is created and registered under the name (failing with `ENOSPC`
when native creation fails); and when the native open fails for a
reason other than "not found" (`denied`), the open fails with `EPERM`
regardless of the flags. -/
theorem sem_open_absent_cases (t : SemTable) (name : String)
    (oCreat oExcl : Bool) (v : Nat)
    (hv : v ≤ SEM_VALUE_MAX) (hlen1 : 1 ≤ name.length) (hlen2 : name.length ≤ 504) :
    (lookupSem t ("Global\\" ++ name) = none →
      sem_open t name false oExcl v true false true
        = ⟨none, some ENOENT, t, [Event.allocEv, Event.freeEv]⟩) ∧
    (lookupSem t ("Global\\" ++ name) = none →
      sem_open t name true oExcl v true false true
        = ⟨some ⟨v, SEM_VALUE_MAX⟩, none,
            ("Global\\" ++ name, (⟨v, SEM_VALUE_MAX⟩ : NativeSem)) :: t,
            [Event.allocEv, Event.createEv]⟩) ∧
    (lookupSem t ("Global\\" ++ name) = none →
      sem_open t name true oExcl v true false false
        = ⟨none, some ENOSPC, t, [Event.allocEv, Event.freeEv]⟩) ∧
    (sem_open t name oCreat oExcl v true true true
      = ⟨none, some EPERM, t, [Event.allocEv, Event.freeEv]⟩) := by
  have h1 : ¬(SEM_VALUE_MAX < v ∨ 512 - 8 < name.length ∨ name.length < 1) := by
    omega
  refine ⟨?_, ?_, ?_, ?_⟩
  · intro habsent
    unfold sem_open
    rw [if_neg h1]
    simp [habsent]
  · intro habsent
    unfold sem_open
    rw [if_neg h1]
    simp [habsent]
  · intro habsent
    unfold sem_open
    rw [if_neg h1]
    simp [habsent]
  · unfold sem_open
    rw [if_neg h1]
    simp

/-- Witness for C6 at name `a` over the empty namespace. -/
theorem sem_open_absent_cases_witness :
    (lookupSem [] ("Global\\" ++ "a") = none →
      sem_open [] "a" false false 0 true false true
        = ⟨none, some ENOENT, [], [Event.allocEv, Event.freeEv]⟩) ∧
    (lookupSem [] ("Global\\" ++ "a") = none →
      sem_open [] "a" true false 0 true false true
        = ⟨some ⟨0, SEM_VALUE_MAX⟩, none,
            ("Global\\" ++ "a", (⟨0, SEM_VALUE_MAX⟩ : NativeSem)) :: [],
            [Event.allocEv, Event.createEv]⟩) ∧
    (lookupSem [] ("Global\\" ++ "a") = none →
      sem_open [] "a" true false 0 true false false
        = ⟨none, some ENOSPC, [], [Event.allocEv, Event.freeEv]⟩) ∧
    (sem_open [] "a" false false 0 true true true
      = ⟨none, some EPERM, [], [Event.allocEv, Event.freeEv]⟩) :=
  sem_open_absent_cases [] "a" false false 0 (by decide) (by decide) (by decide)

/-- C9: for every in-range initial value, `sem_open` sets errno
`EINVAL` exactly for the names of length 0 or length greater than
`504 = 512 - 8`, and for every accepted name the bytes written into
the 512-byte buffer — the 7-byte `Global\` marker, the name, and the
terminating NUL — amount to at most 512, so the write stays in
bounds. -/
theorem sem_open_name_guard_exact (t : SemTable) (name : String)
    (oCreat oExcl : Bool) (v : Nat) (allocOk denied createOk : Bool)
    (hv : v ≤ SEM_VALUE_MAX) :
    ((sem_open t name oCreat oExcl v allocOk denied createOk).errno = some EINVAL
      ↔ (name.length = 0 ∨ 504 < name.length)) ∧
    (¬(name.length = 0 ∨ 504 < name.length) → bytesUsed name ≤ 512) := by
  constructor
  · by_cases hg : SEM_VALUE_MAX < v ∨ 512 - 8 < name.length ∨ name.length < 1
    · have hbad : name.length = 0 ∨ 504 < name.length := by omega
      unfold sem_open
      rw [if_pos hg]
      simp [hbad]
    · have hgood : ¬(name.length = 0 ∨ 504 < name.length) := by omega
      unfold sem_open
      rw [if_neg hg]
      simp only [hgood, iff_false]
      cases hall : allocOk
      · simp [ENOMEM, EINVAL]
      · cases hden : denied
        · rcases hlk : lookupSem t ("Global\\" ++ name) with _ | s
          · cases hc : oCreat
            · simp [hlk, ENOENT, EINVAL]
            · cases hck : createOk
              · simp [hlk, ENOSPC, EINVAL]
              · simp [hlk]
          · by_cases hce : oCreat = true ∧ oExcl = true
            · simp [hlk, hce, EEXIST, EINVAL]
            · simp [hlk, hce]
        · simp [EPERM, EINVAL]
  · intro hgood
    unfold bytesUsed
    omega

/-- Witness for C9 at name `a` (length 1, accepted). -/
theorem sem_open_name_guard_exact_witness :
    ((sem_open [] "a" false false 0 true true true).errno = some EINVAL
      ↔ (("a" : String).length = 0 ∨ 504 < ("a" : String).length)) ∧
    (¬(("a" : String).length = 0 ∨ 504 < ("a" : String).length) →
      bytesUsed "a" ≤ 512) :=
  sem_open_name_guard_exact [] "a" false false 0 true true true (by decide)

/-- C10: on every failure path of `sem_init` the caller's `*sem` slot
is left unwritten and allocations are balanced by frees; on every
failure path of `sem_open` a NULL handle comes with an errno set, all
allocated handle storage is freed, and every acquired native reference
(opened or created) is closed — in particular the just-opened
reference in the exclusive-create case. -/
theorem failure_paths_release_resources :
    (∀ (slot0 : Slot) (semNull : Bool) (pshared : Int) (v : Nat)
        (aOk cOk : Bool) (e : Nat),
      (sem_init slot0 semNull pshared v aOk cOk).ret = Ret.fail e →
      (sem_init slot0 semNull pshared v aOk cOk).slot = slot0 ∧
      nEv (sem_init slot0 semNull pshared v aOk cOk).events Event.allocEv
        = nEv (sem_init slot0 semNull pshared v aOk cOk).events Event.freeEv) ∧
    (∀ (t : SemTable) (name : String) (oCreat oExcl : Bool) (v : Nat)
        (aOk den cOk : Bool),
      (sem_open t name oCreat oExcl v aOk den cOk).ret = none →
      (sem_open t name oCreat oExcl v aOk den cOk).errno ≠ none ∧
      nEv (sem_open t name oCreat oExcl v aOk den cOk).events Event.allocEv
        = nEv (sem_open t name oCreat oExcl v aOk den cOk).events Event.freeEv ∧
      nEv (sem_open t name oCreat oExcl v aOk den cOk).events Event.openEv
          + nEv (sem_open t name oCreat oExcl v aOk den cOk).events Event.createEv
        = nEv (sem_open t name oCreat oExcl v aOk den cOk).events Event.closeEv) := by
  constructor
  · intro slot0 semNull pshared v aOk cOk e h
    unfold sem_init at h ⊢
    split_ifs at h ⊢ <;> simp_all [nEv]
  · intro t name oCreat oExcl v aOk den cOk h
    unfold sem_open at h ⊢
    rcases hlk : lookupSem t ("Global\\" ++ name) with _ | s <;>
      simp only [hlk] at h ⊢ <;>
      split_ifs at h ⊢ <;>
      simp_all [nEv]

/-- Witness for C10: `sem_init` with a NULL `sem` pointer, and
`sem_open` without `O_CREAT` on an absent name. -/
theorem failure_paths_release_resources_witness :
    ((sem_init none true 0 0 true true).slot = none ∧
      nEv (sem_init none true 0 0 true true).events Event.allocEv
        = nEv (sem_init none true 0 0 true true).events Event.freeEv) ∧
    ((sem_open [] "x" false false 0 true false true).errno ≠ none ∧
      nEv (sem_open [] "x" false false 0 true false true).events Event.allocEv
        = nEv (sem_open [] "x" false false 0 true false true).events Event.freeEv ∧
      nEv (sem_open [] "x" false false 0 true false true).events Event.openEv
          + nEv (sem_open [] "x" false false 0 true false true).events Event.createEv
        = nEv (sem_open [] "x" false false 0 true false true).events Event.closeEv) :=
  ⟨failure_paths_release_resources.1 none true 0 0 true true EINVAL (by decide),
   failure_paths_release_resources.2 [] "x" false false 0 true false true (by decide)⟩

end LibPthreadSem
